import Mathlib

/-!
Verification of the VimDoc modal editor front end (`src/App.tsx`) against its
design specification.

The file embeds the React component `App` as pure Lean definitions:

* the initial document text handed to `EditorState.create`;
* the `vimMode` React state (a string, as in the source) together with the
  keydown handler installed through `EditorView.domEventHandlers`;
* the update listener and the status-bar footer;
* the pieces of the engine that live in external CodeMirror packages
  (history, cursor motion, state creation) are modelled from the
  specification and marked as such in their doc comments.

State updates become explicit state passing: one key event maps an
application state to the next application state plus the boolean returned by
the DOM handler.
-/

namespace VimDoc

/-- The document string passed as `doc` to `EditorState.create` in
`App.tsx` (line 27).  Apostrophes are written with the escape `\x27`. -/
def initialDoc : String :=
  "Welcome to VimDoc.\n\nThis is a minimalist document editor with Vim keybindings.\n\nPress \x27i\x27 to enter INSERT mode.\nPress \x27Esc\x27 to return to NORMAL mode.\n\nTry some Vim commands:\n- \x27dd\x27 to delete a line\n- \x27u\x27 to undo\n- \x27/\x27 to search\n- \x27gg\x27 to go to top\n- \x27G\x27 to go to bottom\n\nEnjoy the focus."

/-- `initialDoc` decomposed at the newline characters: the ordered sequence
of lines of the initial document, the representation used by the TextBuffer
of the specification (one entry per line, 15 lines). -/
def initialDocLines : List String :=
  [ "Welcome to VimDoc."
  , ""
  , "This is a minimalist document editor with Vim keybindings."
  , ""
  , "Press \x27i\x27 to enter INSERT mode."
  , "Press \x27Esc\x27 to return to NORMAL mode."
  , ""
  , "Try some Vim commands:"
  , "- \x27dd\x27 to delete a line"
  , "- \x27u\x27 to undo"
  , "- \x27/\x27 to search"
  , "- \x27gg\x27 to go to top"
  , "- \x27G\x27 to go to bottom"
  , ""
  , "Enjoy the focus."
  ]

/-- Modelled from the spec: the configuration surface accepted at
initialization (section 6), restricted to the field the source supplies.
`EditorState.create` in `App.tsx` (lines 26 to 27) receives
`\x7b doc, extensions \x7d`; the `doc` entry is the `initialDocumentText`
of the specification. -/
structure EditorInitConfig where
  doc : String

/-- Modelled from the spec: the editor state produced by CodeMirror
`EditorState.create` (library code, not part of `src/`): the initial
document content is the supplied `doc` string. -/
structure CMEditorState where
  doc : String

/-- Modelled from the spec: `EditorState.create` — initialization consumes
the configuration and the initial document content equals the supplied
`initialDocumentText` (section 6). -/
def createEditorState (cfg : EditorInitConfig) : CMEditorState :=
  { doc := cfg.doc }

/-- The concrete configuration object built at `App.tsx` lines 26 to 27. -/
def startStateConfig : EditorInitConfig :=
  { doc := initialDoc }

/-- The state of the mounted `App` component together with the editor data
the rendering reads.

* `vimMode` is the React state of `App.tsx` line 20, a string.
* `capturedVimMode` is the value of `vimMode` seen inside the keydown
  closure: the `useEffect` that installs the handler has an empty
  dependency array, so it runs once at mount and the closure keeps the
  `vimMode` value of the first render for the whole lifetime of the view.
* `isSidebarOpen` is the React state of `App.tsx` line 21.
* `doc`, `cursorLine`, `cursorCol` are the CodeMirror document and primary
  cursor (line and column as displayed, 1-based). -/
structure AppState where
  vimMode : String
  capturedVimMode : String
  isSidebarOpen : Bool
  doc : String
  cursorLine : Nat
  cursorCol : Nat

/-- The mode value computed by the keydown handler of `App.tsx` lines 96
to 103 from the captured mode, the key of the event and the current mode.
The source runs three independent `if` statements in order, each calling
`setVimMode`; the last executed call determines the rendered state, so the
result is the nested conditional below (the innermost conditional is the
first statement).  The guards test disjoint keys, hence at most one fires. -/
def keydownSets (captured key cur : String) : String :=
  if captured = "NORMAL" ∧ key = "v" then "VISUAL"
  else if captured = "NORMAL" ∧ (key = "i" ∨ key = "a") then "INSERT"
  else if key = "Escape" then "NORMAL"
  else cur

/-- One keydown event processed by the handler registered through
`EditorView.domEventHandlers` (`App.tsx` lines 95 to 104): the new
application state and the boolean returned to CodeMirror.  The handler
always returns `false` and its only assignment is to `vimMode`. -/
def appKeydown (key : String) (s : AppState) : AppState × Bool :=
  ({ s with vimMode := keydownSets s.capturedVimMode key s.vimMode }, false)

/-- The application state after a sequence of key events. -/
def runKeys (keys : List String) (s : AppState) : AppState :=
  keys.foldl (fun t k => (appKeydown k t).1) s

/-- The application state at mount: `vimMode` starts as the string NORMAL
(`App.tsx` line 20), the closure captures that same value, the sidebar is
closed, the editor holds the configured document and the cursor sits at
line 1, column 1. -/
def initApp : AppState :=
  { vimMode := "NORMAL"
  , capturedVimMode := "NORMAL"
  , isSidebarOpen := false
  , doc := (createEditorState startStateConfig).doc
  , cursorLine := 1
  , cursorCol := 1 }

/-- The update listener of `App.tsx` lines 87 to 94: when the document or
the selection changed it computes the cursor position and the line at that
position into local variables and then performs no state update at all, so
as a state transformer it is the identity. -/
def updateListener (s : AppState) : AppState := s

/-- The position text rendered by the status-bar footer (`App.tsx`
line 217): the literal string, independent of the application state. -/
def displayedPositionText (_s : AppState) : String := "Line 1, Col 1"

/-- The position text a faithful status bar would render for a cursor at
the given 1-based line and column. -/
def positionText (line col : Nat) : String :=
  "Line " ++ toString line ++ ", Col " ++ toString col

/-- Modelled from the spec: the line-down motion of `CursorModel.moveBy`
(section 4.2), executed in the application by the `@replit/codemirror-vim`
and CodeMirror packages, which are not part of `src/`.  Lines and columns
are 1-based as displayed; the motion clamps at the document boundary and
the column is clamped to the target line length plus one (end of line). -/
def lineDown (lines : List String) (p : Nat × Nat) : Nat × Nat :=
  let l := min (p.1 + 1) lines.length
  let len := (lines.getD (l - 1) "").length
  (l, min p.2 (len + 1))

/-- Modelled from the spec: an `EditTransaction` of `HistoryManager`
(sections 3 and 4.5) — the record of one undoable mutation: snapshot of
document and cursor before the edit and after the edit.  The implementation
is the `history()` extension of `@codemirror/commands` (`App.tsx` line 35),
which is not part of `src/`. -/
structure EditTransaction where
  beforeDoc : String
  beforeCursor : Nat × Nat
  afterDoc : String
  afterCursor : Nat × Nat

/-- Modelled from the spec: the engine state seen by `HistoryManager` —
the buffer content, the cursor, and the undo and redo stacks. -/
structure EngineState where
  doc : String
  cursor : Nat × Nat
  undoStack : List EditTransaction
  redoStack : List EditTransaction

/-- Modelled from the spec: `HistoryManager.commit` (section 4.5) — the
mutating command lands its edit and the transaction is pushed onto the
undo stack while the redo stack is cleared. -/
def commit (t : EditTransaction) (s : EngineState) : EngineState :=
  { doc := t.afterDoc
  , cursor := t.afterCursor
  , undoStack := t :: s.undoStack
  , redoStack := [] }

/-- Modelled from the spec: `HistoryManager.undo` (section 4.5) — pop the
undo stack, apply the inverse edit to the buffer, push the transaction onto
the redo stack and return the cursor position recorded at commit time;
`none` models the NoOp result on an empty undo stack. -/
def undo (s : EngineState) : EngineState × Option (Nat × Nat) :=
  match s.undoStack with
  | [] => (s, none)
  | t :: rest =>
    ( { doc := t.beforeDoc
      , cursor := t.beforeCursor
      , undoStack := rest
      , redoStack := t :: s.redoStack }
    , some t.beforeCursor )

/-- The displayed mode is one of the three strings the component ever
assigns. -/
def modeOk (m : String) : Prop :=
  m = "NORMAL" ∨ m = "INSERT" ∨ m = "VISUAL"

lemma runKeys_cons (k : String) (ks : List String) (s : AppState) :
    runKeys (k :: ks) s = runKeys ks (appKeydown k s).1 := rfl

lemma runKeys_append (l₁ l₂ : List String) (s : AppState) :
    runKeys (l₁ ++ l₂) s = runKeys l₂ (runKeys l₁ s) := by
  unfold runKeys
  exact List.foldl_append _ _ _ _

lemma runKeys_captured (keys : List String) :
    ∀ s : AppState, (runKeys keys s).capturedVimMode = s.capturedVimMode := by
  induction keys with
  | nil => intro s; rfl
  | cons k ks ih => intro s; rw [runKeys_cons, ih]; rfl

lemma runKeys_doc (keys : List String) :
    ∀ s : AppState, (runKeys keys s).doc = s.doc := by
  induction keys with
  | nil => intro s; rfl
  | cons k ks ih => intro s; rw [runKeys_cons, ih]; rfl

lemma keydownSets_preserves_modeOk (c k cur : String) (h : modeOk cur) :
    modeOk (keydownSets c k cur) := by
  unfold keydownSets
  split_ifs
  · exact Or.inr (Or.inr rfl)
  · exact Or.inr (Or.inl rfl)
  · exact Or.inl rfl
  · exact h

lemma runKeys_modeOk (keys : List String) :
    ∀ s : AppState, modeOk s.vimMode → modeOk (runKeys keys s).vimMode := by
  induction keys with
  | nil => intro s h; exact h
  | cons k ks ih =>
    intro s h
    rw [runKeys_cons]
    exact ih _ (keydownSets_preserves_modeOk _ _ _ h)

lemma keydownSets_escape (c cur : String) :
    keydownSets c "Escape" cur = "NORMAL" := by
  unfold keydownSets
  have h3 : ¬(c = "NORMAL" ∧ ("Escape" : String) = "v") :=
    fun h => absurd h.2 (by decide)
  have h2 : ¬(c = "NORMAL" ∧ (("Escape" : String) = "i" ∨ ("Escape" : String) = "a")) :=
    fun h => absurd h.2 (by decide)
  rw [if_neg h3, if_neg h2, if_pos rfl]

lemma keydownSets_R (c cur : String) : keydownSets c "R" cur = cur := by
  unfold keydownSets
  have h3 : ¬(c = "NORMAL" ∧ ("R" : String) = "v") :=
    fun h => absurd h.2 (by decide)
  have h2 : ¬(c = "NORMAL" ∧ (("R" : String) = "i" ∨ ("R" : String) = "a")) :=
    fun h => absurd h.2 (by decide)
  rw [if_neg h3, if_neg h2, if_neg (by decide : ¬("R" : String) = "Escape")]

set_option maxRecDepth 4000 in
lemma initialDoc_eq_intercalate :
    initialDoc = String.intercalate "\n" initialDocLines := by decide

/-- C1: evaluation of the key handler at the failing inputs.  Starting from
the initial state, `v` sets the mode to VISUAL; pressing `i` while the
current mode is VISUAL nevertheless sets INSERT, and symmetrically pressing
`v` while the current mode is INSERT sets VISUAL, because the guard of the
handler compares the closure-captured mount-time mode (always NORMAL)
rather than the mode current at the time of the keystroke. -/
theorem handler_ignores_current_mode :
    (runKeys ["v"] initApp).vimMode = "VISUAL" ∧
    (runKeys ["v", "i"] initApp).vimMode = "INSERT" ∧
    (runKeys ["i"] initApp).vimMode = "INSERT" ∧
    (runKeys ["i", "v"] initApp).vimMode = "VISUAL" := by decide

/-- C2 counterexample: in the initial state the mode is NORMAL, yet
pressing `o` leaves the mode NORMAL instead of transitioning to Insert:
the handler recognizes only `i` and `a` of the insert family. -/
theorem o_key_no_transition :
    initApp.vimMode = "NORMAL" ∧
    (runKeys ["o"] initApp).vimMode = "NORMAL" ∧
    ("NORMAL" : String) ≠ "INSERT" := by decide

/-- C2 (amended): after any run of key events that leaves the mode NORMAL,
pressing `i` or `a` transitions the mode to Insert, while pressing `o`
causes no mode transition. -/
theorem normal_mode_insert_keys (keys : List String)
    (h : (runKeys keys initApp).vimMode = "NORMAL") :
    (runKeys (keys ++ ["i"]) initApp).vimMode = "INSERT" ∧
    (runKeys (keys ++ ["a"]) initApp).vimMode = "INSERT" ∧
    (runKeys (keys ++ ["o"]) initApp).vimMode = "NORMAL" := by
  have hc : (runKeys keys initApp).capturedVimMode = "NORMAL" :=
    runKeys_captured keys initApp
  refine ⟨?_, ?_, ?_⟩ <;>
    · rw [runKeys_append]
      show keydownSets (runKeys keys initApp).capturedVimMode _
             (runKeys keys initApp).vimMode = _
      rw [hc, h]
      decide

/-- C2 witness: the amended statement at the empty run. -/
theorem normal_mode_insert_keys_witness :
    (runKeys ([] : List String) initApp).vimMode = "NORMAL" ∧
    ((runKeys ([] ++ ["i"]) initApp).vimMode = "INSERT" ∧
     (runKeys ([] ++ ["a"]) initApp).vimMode = "INSERT" ∧
     (runKeys ([] ++ ["o"]) initApp).vimMode = "NORMAL") :=
  ⟨rfl, normal_mode_insert_keys [] rfl⟩

/-- C3: the update listener performs no state update, the status bar
renders the constant text Line 1, Col 1 in every state, and yet the
line-down motion moves the cursor of the initial document from line 1 to
line 2, whose faithful rendering differs from the constant text — so the
displayed line and column do not track the cursor position. -/
theorem status_bar_cursor_mismatch :
    (∀ s : AppState, updateListener s = s) ∧
    (∀ s : AppState, displayedPositionText s = "Line 1, Col 1") ∧
    lineDown initialDocLines (initApp.cursorLine, initApp.cursorCol) = (2, 1) ∧
    positionText 2 1 ≠ displayedPositionText initApp :=
  ⟨fun _ => rfl, fun _ => rfl, by decide, by decide⟩

/-- C4 counterexample: in the initial state the mode is NORMAL, and
pressing `R` leaves the mode NORMAL rather than transitioning to a
Replace value: the handler does not recognize `R` and never assigns a
REPLACE mode string. -/
theorem R_key_not_replace :
    initApp.vimMode = "NORMAL" ∧
    (runKeys ["R"] initApp).vimMode = "NORMAL" ∧
    ("NORMAL" : String) ≠ "REPLACE" := by decide

/-- C4 (amended): pressing `R` never changes the displayed mode, in any
application state; in particular the mode stays Normal when it was
Normal. -/
theorem R_key_no_mode_change :
    ∀ s : AppState, (appKeydown "R" s).1.vimMode = s.vimMode :=
  fun s => keydownSets_R s.capturedVimMode s.vimMode

/-- C5: pressing Escape in any of the non-Normal modes (INSERT, VISUAL,
REPLACE) transitions the displayed mode to NORMAL: the first statement of
the handler assigns NORMAL unconditionally on the Escape key. -/
theorem escape_returns_to_normal :
    ∀ s : AppState,
      s.vimMode = "INSERT" ∨ s.vimMode = "VISUAL" ∨ s.vimMode = "REPLACE" →
      (appKeydown "Escape" s).1.vimMode = "NORMAL" :=
  fun s _ => keydownSets_escape s.capturedVimMode s.vimMode

/-- C5 witness: Escape pressed in a state whose mode is INSERT yields
NORMAL. -/
theorem escape_returns_to_normal_witness :
    ({ initApp with vimMode := "INSERT" } : AppState).vimMode = "INSERT" ∧
    (appKeydown "Escape" { initApp with vimMode := "INSERT" }).1.vimMode
      = "NORMAL" :=
  ⟨rfl, escape_returns_to_normal { initApp with vimMode := "INSERT" } (Or.inl rfl)⟩

/-- C6: round-trip law of the history — for any transaction `t` whose
before-snapshot records the engine state at commit time, performing undo
immediately after commit restores the document content and the cursor
position present immediately before the commit, and undo returns that
recorded cursor position. -/
theorem undo_commit_roundtrip :
    ∀ (s : EngineState) (t : EditTransaction),
      t.beforeDoc = s.doc → t.beforeCursor = s.cursor →
      (undo (commit t s)).1.doc = s.doc ∧
      (undo (commit t s)).1.cursor = s.cursor ∧
      (undo (commit t s)).2 = some s.cursor := by
  intro s t h1 h2
  exact ⟨h1, h2, by rw [← h2]; rfl⟩

/-- C6 witness: the round trip for the edit turning the document `ab` into
`axb` with the cursor moving from column 2 to column 3. -/
theorem undo_commit_roundtrip_witness :
    (undo (commit ⟨"ab", (1, 2), "axb", (1, 3)⟩ ⟨"ab", (1, 2), [], []⟩)).1.doc
      = "ab" ∧
    (undo (commit ⟨"ab", (1, 2), "axb", (1, 3)⟩ ⟨"ab", (1, 2), [], []⟩)).1.cursor
      = (1, 2) ∧
    (undo (commit ⟨"ab", (1, 2), "axb", (1, 3)⟩ ⟨"ab", (1, 2), [], []⟩)).2
      = some (1, 2) :=
  undo_commit_roundtrip ⟨"ab", (1, 2), [], []⟩ ⟨"ab", (1, 2), "axb", (1, 3)⟩ rfl rfl

/-- C7: state creation returns exactly the supplied initial document text
for every supplied value, the concrete configuration of the source yields
`initialDoc`, and no sequence of key events ever changes the stored
document of the application state — the configured document is immutable
after initialization. -/
theorem initial_doc_config :
    (∀ d : String, (createEditorState ⟨d⟩).doc = d) ∧
    (createEditorState startStateConfig).doc = initialDoc ∧
    ∀ keys : List String, (runKeys keys initApp).doc = initialDoc :=
  ⟨fun _ => rfl, rfl, fun keys => runKeys_doc keys initApp⟩

/-- C8: at initialization, before any key event is processed, the mode is
NORMAL. -/
theorem initial_mode_normal :
    initApp.vimMode = "NORMAL" ∧ (runKeys [] initApp).vimMode = "NORMAL" :=
  ⟨rfl, rfl⟩

/-- C9: for every sequence of key events the displayed mode stays in the
set of the three strings NORMAL, INSERT, VISUAL, and in particular it is
never REPLACE. -/
theorem mode_never_replace :
    ∀ keys : List String,
      ((runKeys keys initApp).vimMode = "NORMAL" ∨
       (runKeys keys initApp).vimMode = "INSERT" ∨
       (runKeys keys initApp).vimMode = "VISUAL") ∧
      (runKeys keys initApp).vimMode ≠ "REPLACE" := by
  intro keys
  have h : modeOk (runKeys keys initApp).vimMode :=
    runKeys_modeOk keys initApp (Or.inl rfl)
  refine ⟨h, ?_⟩
  rcases h with h | h | h <;> rw [h] <;> decide

/-- C10: the keydown handler returns false on every key event and leaves
the document content and the cursor position unchanged: its only effect is
the assignment to the displayed mode. -/
theorem keydown_frame :
    ∀ (key : String) (s : AppState),
      (appKeydown key s).2 = false ∧
      (appKeydown key s).1.doc = s.doc ∧
      (appKeydown key s).1.cursorLine = s.cursorLine ∧
      (appKeydown key s).1.cursorCol = s.cursorCol :=
  fun _ _ => ⟨rfl, rfl, rfl, rfl⟩

end VimDoc
